import Mathlib

/-!
# Verification of the gene-editing breeding simulator (geneedit.py)

Shallow embedding of the parts of `src/gene-editing/geneedit.py` that the
frozen claims C1..C10 are about, together with theorems settling each claim.

Modelling conventions:

* Python animal records are dicts with string keys (`'animal'`, `'sire'`, ...,
  `'genotypes'`).  They are embedded as the structure `Animal` below.  The
  source once used plain lists for these records (the old layout is kept in a
  comment at geneedit.py:1974-1990), and a few statements still assign through
  the old *integer* indices (`calf[6] = 'D'` and friends).  On a dict such an
  assignment silently creates a new entry under the integer key instead of
  touching the string-keyed field; the structure therefore also carries the
  three possible integer-keyed entries `key6`, `key7`, `key8` (all `none`
  until such an assignment happens).
* Monetary values, frequencies and breeding values are embedded as `ℚ`.
* Randomness: every primitive random draw of the source
  (`bernoulli.rvs`, `random.normalvariate`, `random.randint`) consumes one
  element of an explicit stream (`RSrc`).  A Bernoulli draw with success
  probability `p ≤ 0` is always `false` and with `p ≥ 1` always `true`,
  matching `scipy.stats.bernoulli`; otherwise the outcome is taken from the
  stream.  Theorems either quantify over all streams or fix a concrete one.
* Fallible operations (list indexing, division, reading an unbound Python
  name) return `Except PyErr`.
-/

namespace GeneEdit

/-- Python run-time errors that the embedded code can raise. -/
inductive PyErr where
  /-- An out-of-range list index (Python `IndexError`). -/
  | indexError : PyErr
  /-- Reading a name that was never bound (Python `NameError`). -/
  | nameError : String → PyErr
  /-- Division by zero (Python `ZeroDivisionError`). -/
  | zeroDivision : PyErr
  /-- `random.randint(0, -1)` on an empty bull list (Python `ValueError`). -/
  | valueError : PyErr
  /-- A dictionary lookup with an absent key (Python `KeyError`). -/
  | keyError : PyErr
  /-- Fuel exhausted while modelling an unbounded `while True` retry loop;
  only reachable in the `edit_trials < 0` / `embryo_trials < 0` branches. -/
  | outOfFuel : PyErr
deriving DecidableEq, Repr

/-- One recessive-locus definition: the values stored in the `recessives`
dictionary of the source (`frequency`, `value`, `lethal`, `edit`,
`edit_mode`).  The locus name is kept alongside in association lists, in the
fixed locus order of the scenario. -/
structure Recessive where
  frequency : ℚ
  value : ℚ
  lethal : Nat
  edit : String
  edit_mode : String
deriving DecidableEq, Repr

/-- The `et_count` field of an animal record.  `create_new_calf` builds it as
a per-locus list of integers, but `edit_genes` (geneedit.py:2322) overwrites
the whole field with a single integer for clones; Python's dynamic typing
allows both, so the embedding uses a sum. -/
inductive EtCount where
  | vec : List Int → EtCount
  | num : Int → EtCount
deriving DecidableEq, Repr

/-- An animal record: the dict built at geneedit.py:1991-1994, plus the three
legacy integer-keyed entries (see the module comment). -/
structure Animal where
  animal : Nat
  sire : Nat
  dam : Nat
  born : Int
  sex : Char
  herd : Nat
  alive : String
  reason : String
  died : Int
  tbv : ℚ
  inbreeding : ℚ
  edit_status : List Int
  edit_count : List Int
  et_count : EtCount
  bred : Nat
  genotypes : List Int
  key6 : Option String := none
  key7 : Option String := none
  key8 : Option Int := none
deriving DecidableEq, Repr

/-- Explicit source of randomness: `bools` feeds Bernoulli draws and the
1-in-100001 mutation draw of `random.randint(1,100001) == 1`, `reals` feeds
`random.normalvariate`, `nats` feeds `random.randint(0, len(bulls)-1)`. -/
structure RSrc where
  bools : List Bool
  reals : List ℚ
  nats : List Nat
deriving DecidableEq, Repr

/-- One Bernoulli draw with success probability `p`
(`scipy.stats.bernoulli.rvs(p)`): deterministic at the extremes, otherwise
the next stream element. -/
def bern (p : ℚ) (s : RSrc) : Bool × RSrc :=
  (if 1 ≤ p then true else if p ≤ 0 then false else s.bools.headD false,
   { s with bools := s.bools.tail })

/-- `size`-many Bernoulli draws (`bernoulli.rvs(p, size=n)`), in order. -/
def bernMany (p : ℚ) : Nat → RSrc → List Bool × RSrc
  | 0, s => ([], s)
  | n + 1, s =>
    let (b, s') := bern p s
    let (bs, s'') := bernMany p n s'
    (b :: bs, s'')

/-- One draw of `random.normalvariate(0, 1)`: the realized value is supplied
by the stream (its distribution is irrelevant to every claim proved here). -/
def popReal (s : RSrc) : ℚ × RSrc :=
  (s.reals.headD 0, { s with reals := s.reals.tail })

/-- One draw of `random.randint(0, n-1)`: supplied by the stream, reduced
into range. -/
def popNat (s : RSrc) : Nat × RSrc :=
  (s.nats.headD 0, { s with nats := s.nats.tail })

/-- One draw of `random.randint(1, 100001) == 1` (the spontaneous-mutation
test of geneedit.py:2045): `true` means the drawn integer was 1. -/
def popMutation (s : RSrc) : Bool × RSrc :=
  (s.bools.headD false, { s with bools := s.bools.tail })

/-- Python list indexing `xs[i]`: raises `IndexError` when out of range. -/
def pyGet (xs : List α) (i : Nat) : Except PyErr α :=
  match xs[i]? with
  | some x => .ok x
  | none => .error .indexError

/-- Python list item assignment `xs[i] = v`: raises `IndexError` when out of
range. -/
def pySet (xs : List α) (i : Nat) (v : α) : Except PyErr (List α) :=
  if i < xs.length then .ok (xs.set i v) else .error .indexError

/-- 1-based index of the first `true` in an outcome vector:
`np.min(np.nonzero(outcomes)) + 1` (geneedit.py:2285, 2322). -/
def firstSuccess (outs : List Bool) : Int :=
  (outs.findIdx id : Int) + 1

/-!
## Genetic Transmission Model: `create_new_calf` (geneedit.py:1931-2113)

The body of the `for rk, rv in recessives.iteritems()` loop
(geneedit.py:2000-2111) draws one allele from each parent, builds the
offspring genotype, and then — still inside the loop — runs the calf-loss,
dehorning and beef-harvest mortality checks and finally appends this locus's
`edit_status`/`edit_count`/`et_count` entries.  The calf-loss and dehorning
checks `return calf` immediately on death, skipping both the appends of the
current iteration and all remaining loci.  The lethal-recessive branch
(geneedit.py:2034-2036) assigns through the legacy integer indices
`calf[6]`, `calf[7]`, `calf[8]`, which on the dict record create integer-keyed
entries (`key6`/`key7`/`key8` here) and leave `alive`/`reason`/`died`
untouched.
-/

/-- One parental allele draw (geneedit.py:2007-2027): a homozygote transmits
deterministically, a heterozygote draws `bernoulli.rvs(0.5)` (`0 ↦ 'A'`,
`1 ↦ 'a'`). -/
def draw_allele (g : Int) (rs : RSrc) : Char × RSrc :=
  if g = 1 then ('A', rs)
  else if g = 0 then
    let (b, rs') := bern (1/2) rs
    (if b then 'a' else 'A', rs')
  else ('a', rs)

/-- The per-locus loop of `create_new_calf` (geneedit.py:2000-2111).
`recNames` is `recessives.keys()` (needed for the `'Horned'` lookup), `r` is
the running locus index. -/
def calf_locus_loop (sire dam : Animal) (recNames : List String) (generation : Int)
    (calf_loss dehorning_loss harvest_beef : ℚ) (sex : Char) :
    List (String × Recessive) → Nat → Animal → RSrc → Except PyErr (Animal × RSrc)
  | [], _, calf, rs => .ok (calf, rs)
  | (_, rv) :: rest, r, calf, rs =>
    match pyGet sire.genotypes r with
    | .error e => .error e
    | .ok bg =>
      let pS := draw_allele bg rs
      match pyGet dam.genotypes r with
      | .error e => .error e
      | .ok dg =>
        let pD := draw_allele dg pS.2
        -- genotype construction (geneedit.py:2031-2055)
        let step1 : Animal × RSrc :=
          if pS.1 = 'a' ∧ pD.1 = 'a' then
            let calf :=
              if rv.lethal = 1 then
                { calf with key6 := some "D", key7 := some "R", key8 := some generation }
              else calf
            ({ calf with genotypes := calf.genotypes ++ [-1] }, pD.2)
          else if pS.1 = 'A' ∧ pD.1 = 'A' then
            let pM := popMutation pD.2
            if pM.1 then ({ calf with genotypes := calf.genotypes ++ [0] }, pM.2)
            else ({ calf with genotypes := calf.genotypes ++ [1] }, pM.2)
          else
            ({ calf with genotypes := calf.genotypes ++ [0] }, pD.2)
        -- calf-loss check (geneedit.py:2058-2065): early return on death
        let pC := bern calf_loss step1.2
        if pC.1 then
          .ok ({ step1.1 with alive := "D", reason := "C", died := generation }, pC.2)
        else
          -- dehorning check (geneedit.py:2070-2086): early return on death
          let calf := step1.1
          let dehorn : Except PyErr (Bool × Animal × RSrc) :=
            if calf.alive = "A" ∧ "Horned" ∈ recNames then
              let hl := recNames.findIdx (· = "Horned")
              match pyGet calf.genotypes hl with
              | .error e => .error e
              | .ok hg =>
                if hg = -1 then
                  let pH := bern dehorning_loss pC.2
                  if pH.1 then
                    .ok (true, { calf with alive := "D", reason := "H", died := generation },
                      pH.2)
                  else .ok (false, calf, pH.2)
                else .ok (false, calf, pC.2)
            else .ok (false, calf, pC.2)
          match dehorn with
          | .error e => .error e
          | .ok (true, calf2, rs2) => .ok (calf2, rs2)
          | .ok (false, calf2, rs2) =>
            -- beef-harvest check (geneedit.py:2091-2104): marks dead, no early return
            let step2 : Animal × RSrc :=
              if calf2.alive = "A" ∧ sex = 'M' then
                let pB := bern harvest_beef rs2
                if pB.1 then
                  ({ calf2 with alive := "D", reason := "B", died := generation }, pB.2)
                else (calf2, pB.2)
              else (calf2, rs2)
            -- per-locus bookkeeping appends (geneedit.py:2107-2111)
            let calf3 := { step2.1 with
              edit_status := step2.1.edit_status ++ [0],
              edit_count := step2.1.edit_count ++ [0],
              et_count := match step2.1.et_count with
                | .vec l => .vec (l ++ [0])
                | .num n => .num n }
            calf_locus_loop sire dam recNames generation calf_loss dehorning_loss
              harvest_beef sex rest (r + 1) calf3 step2.2

/-- `create_new_calf` (geneedit.py:1931-2113).  The Mendelian-sampling term
of the TBV (geneedit.py:1970-1971) is
`normalvariate(0,1) * 200 * sqrt(0.5) * (1 - 0.5*(F_s + F_d))`; the constant
factor `sqrt(0.5)` is irrational and is folded into the stream-supplied
Gaussian realization `z`, which is sound because no claim below depends on
the TBV's numeric value. -/
def create_new_calf (sire dam : Animal) (recessives : List (String × Recessive))
    (calf_id : Nat) (generation : Int) (calf_loss dehorning_loss harvest_beef : ℚ)
    (rs : RSrc) : Except PyErr (Animal × RSrc) :=
  -- clamp of calf_loss (geneedit.py:1956-1961)
  let calf_loss := if 0 ≤ calf_loss ∧ calf_loss ≤ 1 then calf_loss else 0
  -- sex draw (geneedit.py:1963-1966)
  let p1 := bern (1/2) rs
  let sex := if p1.1 then 'M' else 'F'
  let p2 := popReal p1.2
  let tbv := (sire.tbv + dam.tbv) * (1/2)
      + p2.1 * 200 * (1 - (sire.inbreeding + dam.inbreeding) * (1/2))
  -- the fresh record (geneedit.py:1991-1994)
  let calf : Animal :=
    { animal := calf_id, sire := sire.animal, dam := dam.animal, born := generation,
      sex := sex, herd := dam.herd, alive := "A", reason := "", died := -1,
      tbv := tbv, inbreeding := 0, edit_status := [], edit_count := [],
      et_count := .vec [], bred := 0, genotypes := [] }
  calf_locus_loop sire dam (recessives.map Prod.fst) generation calf_loss dehorning_loss
    harvest_beef sex recessives 0 calf p2.2

/-!
### Concrete transmission-model inputs for claims C4 and C7
-/

/-- A live sire that is homozygous-recessive (`-1`) at the single locus. -/
def aaSire : Animal :=
  { animal := 1, sire := 0, dam := 0, born := 0, sex := 'M', herd := 0, alive := "A",
    reason := "", died := -1, tbv := 0, inbreeding := 0, edit_status := [0],
    edit_count := [0], et_count := .vec [0], bred := 0, genotypes := [-1] }

/-- A live dam that is homozygous-recessive (`-1`) at the single locus. -/
def aaDam : Animal :=
  { animal := 2, sire := 0, dam := 0, born := 0, sex := 'F', herd := 0, alive := "A",
    reason := "", died := -1, tbv := 0, inbreeding := 0, edit_status := [0],
    edit_count := [0], et_count := .vec [0], bred := 0, genotypes := [-1] }

/-- A single lethal recessive locus (`lethal = 1`). -/
def lethalRecs : List (String × Recessive) :=
  [("BLAD", { frequency := 1/100, value := 40, lethal := 1, edit := "0", edit_mode := "A" })]

/-- The calf produced by mating `aaSire × aaDam` over `lethalRecs` in
generation 3 with all external mortality rates zero. -/
def C4calf : Except PyErr (Animal × RSrc) :=
  create_new_calf aaSire aaDam lethalRecs 10 3 0 0 0 ⟨[], [], []⟩

/-- **C4** (code бug, evaluated): mating two homozygous-recessive parents at a
lethal locus yields a calf whose genotype is `-1` at that locus, yet whose
`alive` field is still `"A"`, whose `reason` is empty and whose `died` is the
`-1` sentinel: the death markers went into the legacy integer dict keys
`6`/`7`/`8` (geneedit.py:2034-2036) instead of `'alive'`/`'reason'`/`'died'`,
so the claim's required dead/recessive-lethal/birth-generation marking never
happens. -/
theorem C4_lethal_homozygote_not_marked_dead :
    (C4calf.toOption.map fun p =>
      (p.1.alive, p.1.reason, p.1.died, p.1.genotypes, p.1.key6, p.1.key7, p.1.key8))
      = some ("A", "", -1, [-1], some "D", some "R", some 3) := by
  norm_num [C4calf, create_new_calf, calf_locus_loop, draw_allele, bern, popReal,
    popMutation, pyGet, aaSire, aaDam, lethalRecs]
  simp +decide
  exact ⟨_, ⟨_, rfl⟩, rfl, rfl, rfl, rfl, rfl, rfl, rfl⟩

/-- Two non-lethal loci. -/
def twoRecs : List (String × Recessive) :=
  [("L1", { frequency := 1/2, value := 20, lethal := 0, edit := "0", edit_mode := "A" }),
   ("L2", { frequency := 1/4, value := 30, lethal := 0, edit := "0", edit_mode := "A" })]

/-- A live parent homozygous-major at both loci. -/
def AASire : Animal :=
  { animal := 1, sire := 0, dam := 0, born := 0, sex := 'M', herd := 0, alive := "A",
    reason := "", died := -1, tbv := 0, inbreeding := 0, edit_status := [0, 0],
    edit_count := [0, 0], et_count := .vec [0, 0], bred := 0, genotypes := [1, 1] }

/-- A live dam homozygous-major at both loci. -/
def AADam : Animal :=
  { animal := 2, sire := 0, dam := 0, born := 0, sex := 'F', herd := 0, alive := "A",
    reason := "", died := -1, tbv := 0, inbreeding := 0, edit_status := [0, 0],
    edit_count := [0, 0], et_count := .vec [0, 0], bred := 0, genotypes := [1, 1] }

/-- The calf produced over the two-locus scenario with `calf_loss = 1`
(`bernoulli.rvs(1)` is deterministically 1, so the calf dies in the calf-loss
check of the very first locus iteration). -/
def C7calf : Except PyErr (Animal × RSrc) :=
  create_new_calf AASire AADam twoRecs 10 3 1 0 0 ⟨[], [], []⟩

/-- **C7** (code bug, evaluated): over a scenario with two defined loci, a
calf that dies in the calf-loss check is returned with a genotype vector of
length 1 and `edit_status`/`edit_count` vectors of length 0, because the
mortality checks sit inside the per-locus loop and `return` before the
bookkeeping appends (geneedit.py:2058-2065 vs 2107-2111).  The claim requires
one entry per locus (here: 2) in every vector for every record produced. -/
theorem C7_dead_calf_has_short_vectors :
    (C7calf.toOption.map fun p =>
      (p.1.alive, p.1.reason, p.1.genotypes.length, p.1.edit_status.length,
        p.1.edit_count.length)) = some ("D", "C", 1, 0, 0) ∧ twoRecs.length = 2 := by
  refine ⟨?_, rfl⟩
  norm_num [C7calf, create_new_calf, calf_locus_loop, draw_allele, bern, popReal,
    popMutation, pyGet, AASire, AADam, twoRecs]
  simp +decide
  exact ⟨_, ⟨_, rfl⟩, rfl, rfl, rfl, rfl, rfl⟩

/-!
## Culling/Lifecycle: `cull_bulls` (geneedit.py:2377-2442) and its call site

`run_scenario` invokes `cull_bulls(bulls, dead_bulls, generation, max_bulls,
debug=debug)` (geneedit.py:4223): the configured `max_bull_age` parameter of
`run_scenario` (documented "Maximum age of bulls", geneedit.py:3458) is never
forwarded, so `cull_bulls` always runs with its default `max_bull_age=3`.
-/

/-- Stable insertion into a TBV-ascending sorted list. -/
def insertTbv (b : Animal) : List Animal → List Animal
  | [] => [b]
  | x :: xs => if b.tbv ≤ x.tbv then b :: x :: xs else x :: insertTbv b xs

/-- Stable ascending sort by TBV, modelling
`bulls.sort(key=lambda x: x['tbv'])` (geneedit.py:2430; Python's sort is
stable). -/
def sortTbv : List Animal → List Animal
  | [] => []
  | x :: xs => insertTbv x (sortTbv xs)

/-- `cull_bulls` (geneedit.py:2377-2442): sanitize `max_bulls`, mark every
bull older than `max_bull_age` dead (reason `"A"`, the age code) and append
it to the dead list, keep only records still marked `"A"` alive, then — if
the survivors exceed `max_bulls` — cull the lowest-TBV excess (reason
`"N"`). -/
def cull_bulls (bulls dead_bulls : List Animal) (generation : Int)
    (max_bulls : Int := 250) (max_bull_age : Int := 3) : List Animal × List Animal :=
  -- sanitization (geneedit.py:2400-2402)
  let max_bulls := if max_bulls ≤ 0 then 250 else max_bulls
  -- age cull (geneedit.py:2407-2414)
  let marked := bulls.map fun b =>
    if generation - b.born > max_bull_age then
      { b with alive := "D", reason := "A", died := generation }
    else b
  let dead1 := dead_bulls ++ marked.filter fun b => generation - b.born > max_bull_age
  -- keep live records (geneedit.py:2419)
  let live1 := marked.filter fun b => b.alive = "A"
  if (live1.length : Int) ≤ max_bulls then (live1, dead1)
  else
    -- capacity cull on ascending TBV (geneedit.py:2428-2442)
    let sorted := sortTbv live1
    let ncull := sorted.length - max_bulls.toNat
    let culled := (sorted.take ncull).map fun b =>
      { b with alive := "D", reason := "N", died := generation }
    (sorted.drop ncull, dead1 ++ culled)

/-- The bull-culling step of the generation loop
(geneedit.py:4223): `max_bull_age` is not passed, so the default 3 is in
force no matter what maximum bull age the scenario configured. -/
def run_scenario_cull_bulls (bulls dead_bulls : List Animal) (generation : Int)
    (max_bulls : Int) : List Animal × List Animal :=
  cull_bulls bulls dead_bulls generation max_bulls

/-- A live bull of age 2 (born in generation 0, culled in generation 2). -/
def C8bull : Animal :=
  { animal := 7, sire := 0, dam := 0, born := 0, sex := 'M', herd := 0, alive := "A",
    reason := "", died := -1, tbv := 100, inbreeding := 0, edit_status := [0],
    edit_count := [0], et_count := .vec [0], bred := 0, genotypes := [1] }

/-- **C8** (code bug, evaluated): with a configured maximum bull age of 1, a
live bull of age 2 survives the generation loop's culling step, because the
call at geneedit.py:4223 drops the configured `max_bull_age` and the
hard-coded default 3 is used instead; the post-cull invariant "no live
animal is older than its sex's configured maximum age" fails. -/
theorem C8_configured_bull_age_ignored :
    (run_scenario_cull_bulls [C8bull] [] 2 10).1 = [C8bull]
      ∧ (2 : Int) - C8bull.born > 1 ∧ C8bull.alive = "A"
      ∧ (run_scenario_cull_bulls [C8bull] [] 2 10).2 = [] := by
  refine ⟨?_, by decide, rfl, ?_⟩ <;>
    simp [run_scenario_cull_bulls, cull_bulls, C8bull]

/-!
## Allele Frequency Tracker: `update_maf` (geneedit.py:2841-2924)

The counting loops (geneedit.py:2865-2883) add 1 per heterozygote (`0`) and
2 per homozygous-minor (`-1`) animal to each locus's counter, first over the
bulls list, then over the cows list; the frequency loop
(geneedit.py:2884-2924) divides by `2 * (len(cows) + len(bulls))`, writes
the result into `recessives[rk]['frequency']` and appends it to
`freq_hist[generation]`.  The lethal/non-lethal branch
(geneedit.py:2892-2920) only computes genotype frequencies for console
output and is not modelled.  In Python 2 `recessives.keys()` and
`recessives.iteritems()` enumerate in the same (fixed) order, so the r-th
appended frequency belongs to the r-th locus.
-/

/-- Minor-allele contribution of one genotype code (geneedit.py:2866-2873):
a heterozygote (`0`) adds 1, a homozygous-minor (`-1`) adds 2. -/
def allele_add (g : Int) : Nat :=
  (if g = 0 then 1 else 0) + (if g = -1 then 2 else 0)

/-- Inner counting loop for one animal
(`for r in xrange(len(recessives.keys())): ...`), walking the counter list
with running locus index `i`; `a['genotypes'][r]` raises on a too-short
genotype vector. -/
def count_animal (a : Animal) : Nat → List Nat → Except PyErr (List Nat)
  | _, [] => .ok []
  | i, k :: rest =>
    match pyGet a.genotypes i with
    | .error e => .error e
    | .ok g =>
      match count_animal a (i + 1) rest with
      | .error e => .error e
      | .ok rest' => .ok ((k + allele_add g) :: rest')

/-- Outer counting loop over a list of animals (geneedit.py:2865, 2875). -/
def count_animals : List Animal → List Nat → Except PyErr (List Nat)
  | [], counts => .ok counts
  | a :: rest, counts =>
    match count_animal a 0 counts with
    | .error e => .error e
    | .ok counts' => count_animals rest counts'

/-- `update_maf` (geneedit.py:2841-2924): returns the updated recessives
table and the frequency vector that becomes `freq_hist[generation]`.
Division by zero (an empty live population) raises, as in Python. -/
def update_maf (cows bulls : List Animal) (recessives : List (String × Recessive)) :
    Except PyErr (List (String × Recessive) × List ℚ) :=
  let init : List Nat := List.replicate recessives.length 0
  match count_animals bulls init with
  | .error e => .error e
  | .ok c1 =>
    match count_animals cows c1 with
    | .error e => .error e
    | .ok counts =>
      let total : Nat := 2 * (cows.length + bulls.length)
      if total = 0 then .error .zeroDivision
      else
        let freqs := counts.map fun (k : Nat) => (k : ℚ) / (total : ℚ)
        .ok ((recessives.zip freqs).map fun p => (p.1.1, { p.1.2 with frequency := p.2 }),
          freqs)

/-- `freq_hist[generation] = [...]` (geneedit.py:2886/2923): the history maps
a generation to its frequency vector; the entry for `generation` is set to
the fresh vector and every other entry is untouched (append-only in the
generation loop, which visits each generation once). -/
def freq_hist_update (hist : Int → Option (List ℚ)) (generation : Int)
    (freqs : List ℚ) : Int → Option (List ℚ) :=
  fun g => if g = generation then some freqs else hist g

/-- Specification-side count of heterozygous animals at locus `r`. -/
def het_count : List Animal → Nat → Nat
  | [], _ => 0
  | a :: rest, r => (if a.genotypes[r]? = some 0 then 1 else 0) + het_count rest r

/-- Specification-side count of homozygous-minor animals at locus `r`. -/
def homminor_count : List Animal → Nat → Nat
  | [], _ => 0
  | a :: rest, r => (if a.genotypes[r]? = some (-1) then 1 else 0) + homminor_count rest r

lemma count_animal_ok_length (a : Animal) :
    ∀ (counts res : List Nat) (i : Nat), count_animal a i counts = .ok res →
      res.length = counts.length := by
  intro counts
  induction counts with
  | nil =>
    intro res i h
    simp only [count_animal] at h
    cases h
    rfl
  | cons k rest ih =>
    intro res i h
    simp only [count_animal] at h
    cases hg : pyGet a.genotypes i with
    | error e => rw [hg] at h; cases h
    | ok g =>
      rw [hg] at h
      cases hr : count_animal a (i + 1) rest with
      | error e => rw [hr] at h; cases h
      | ok rest' =>
        rw [hr] at h
        cases h
        simpa using ih rest' (i + 1) hr

lemma count_animal_ok_get (a : Animal) :
    ∀ (counts res : List Nat) (i : Nat), count_animal a i counts = .ok res →
      ∀ j, j < counts.length →
        ∃ g, a.genotypes[i + j]? = some g ∧
          res[j]? = some (counts.getD j 0 + allele_add g) := by
  intro counts
  induction counts with
  | nil => intro res i h j hj; simp at hj
  | cons k rest ih =>
    intro res i h j hj
    simp only [count_animal] at h
    cases hg : pyGet a.genotypes i with
    | error e => rw [hg] at h; cases h
    | ok g =>
      rw [hg] at h
      cases hr : count_animal a (i + 1) rest with
      | error e => rw [hr] at h; cases h
      | ok rest' =>
        rw [hr] at h
        cases h
        cases j with
        | zero =>
          refine ⟨g, ?_, by simp⟩
          simp only [pyGet] at hg
          cases hx : a.genotypes[i]? with
          | none => rw [hx] at hg; cases hg
          | some y =>
            rw [hx] at hg
            cases hg
            simpa using hx
        | succ j' =>
          have hj' : j' < rest.length := by simpa using Nat.lt_of_succ_lt_succ hj
          obtain ⟨g', hget, hres⟩ := ih rest' (i + 1) hr j' hj'
          refine ⟨g', ?_, ?_⟩
          · have heq : i + (j' + 1) = i + 1 + j' := by omega
            rw [heq]; exact hget
          · simpa using hres

lemma count_animals_ok_length :
    ∀ (as : List Animal) (counts res : List Nat), count_animals as counts = .ok res →
      res.length = counts.length := by
  intro as
  induction as with
  | nil => intro counts res h; simp only [count_animals] at h; cases h; rfl
  | cons a rest ih =>
    intro counts res h
    simp only [count_animals] at h
    cases hc : count_animal a 0 counts with
    | error e => rw [hc] at h; cases h
    | ok counts' =>
      rw [hc] at h
      calc res.length = counts'.length := ih counts' res h
        _ = counts.length := count_animal_ok_length a counts counts' 0 hc

lemma count_animals_ok_get :
    ∀ (as : List Animal) (counts res : List Nat), count_animals as counts = .ok res →
      ∀ j, j < counts.length →
        res[j]? = some (counts.getD j 0 + het_count as j + 2 * homminor_count as j) := by
  intro as
  induction as with
  | nil =>
    intro counts res h j hj
    simp only [count_animals] at h
    cases h
    cases hx : counts[j]? with
    | none => exact absurd (List.getElem?_eq_none_iff.1 hx) (by omega)
    | some v => simp [List.getD, hx, het_count, homminor_count]
  | cons a rest ih =>
    intro counts res h j hj
    simp only [count_animals] at h
    cases hc : count_animal a 0 counts with
    | error e => rw [hc] at h; cases h
    | ok counts' =>
      rw [hc] at h
      have hlen : counts'.length = counts.length := count_animal_ok_length a counts counts' 0 hc
      have hres := ih counts' res h j (by omega)
      obtain ⟨g, hget, hj0⟩ := count_animal_ok_get a counts counts' 0 hc j hj
      rw [Nat.zero_add] at hget
      have hD : counts'.getD j 0 = counts.getD j 0 + allele_add g := by
        simp [List.getD, hj0]
      rw [hres, hD]
      have hhet : het_count (a :: rest) j = (if g = 0 then 1 else 0) + het_count rest j := by
        simp [het_count, hget]
      have hhom : homminor_count (a :: rest) j
          = (if g = -1 then 1 else 0) + homminor_count rest j := by
        simp [homminor_count, hget]
      rw [hhet, hhom, allele_add]
      congr 1
      split_ifs <;> omega

/-- **C9** (confirmed): whenever `update_maf` returns (it raises only on an
empty live population or a malformed genotype vector), the frequency vector
entry for each locus `r` equals
`(het + 2·homminor) / (2 · live population size)` counted over all live cows
and bulls, the updated recessives table carries exactly that value as the
locus's current frequency (all other locus fields unchanged), and the
frequency history gains that vector as the entry for the current
generation. -/
theorem C9_update_maf_formula (cows bulls : List Animal)
    (recessives : List (String × Recessive)) (generation : Int)
    (hist : Int → Option (List ℚ)) (rc : List (String × Recessive)) (fr : List ℚ)
    (h : update_maf cows bulls recessives = .ok (rc, fr)) :
    (∀ r p, recessives[r]? = some p →
      fr[r]? = some
        ((((het_count cows r + het_count bulls r : ℕ) : ℚ) +
            2 * ((homminor_count cows r + homminor_count bulls r : ℕ) : ℚ)) /
          (2 * ((cows.length + bulls.length : ℕ) : ℚ)))
      ∧ rc[r]? = some (p.1, { p.2 with frequency :=
          (((het_count cows r + het_count bulls r : ℕ) : ℚ) +
            2 * ((homminor_count cows r + homminor_count bulls r : ℕ) : ℚ)) /
          (2 * ((cows.length + bulls.length : ℕ) : ℚ)) }))
    ∧ freq_hist_update hist generation fr generation = some fr := by
  simp only [update_maf] at h
  cases hb : count_animals bulls (List.replicate recessives.length 0) with
  | error e => rw [hb] at h; cases h
  | ok c1 =>
    rw [hb] at h
    dsimp only at h
    cases hcw : count_animals cows c1 with
    | error e => rw [hcw] at h; cases h
    | ok counts =>
      rw [hcw] at h
      dsimp only at h
      by_cases htot : 2 * (cows.length + bulls.length) = 0
      · rw [if_pos htot] at h; cases h
      · rw [if_neg htot] at h
        cases h
        constructor
        · intro r p hp
          have hr : r < recessives.length := by
            by_contra hge
            have hnone : recessives[r]? = none := List.getElem?_eq_none (by omega)
            rw [hp] at hnone
            cases hnone
          have hlen1 : c1.length = recessives.length := by
            simpa using count_animals_ok_length bulls _ c1 hb
          have hlenc : counts.length = recessives.length := by
            rw [count_animals_ok_length cows c1 counts hcw, hlen1]
          have hb' := count_animals_ok_get bulls _ c1 hb r (by simpa using hr)
          have hc' := count_animals_ok_get cows c1 counts hcw r (by omega)
          have hbD : c1.getD r 0
              = het_count bulls r + 2 * homminor_count bulls r := by
            rw [List.getD_eq_getElem?_getD, hb']
            simp only [Option.getD_some, List.getD_eq_getElem?_getD,
              List.getElem?_replicate]
            split <;> simp
          rw [hbD] at hc'
          have hval : counts[r]? = some
              (het_count cows r + het_count bulls r
                + 2 * (homminor_count cows r + homminor_count bulls r)) := by
            rw [hc']; congr 1; omega
          have hfr : (counts.map fun (k : Nat) => (k : ℚ)
                / ((2 * (cows.length + bulls.length) : ℕ) : ℚ))[r]?
              = some
                ((((het_count cows r + het_count bulls r : ℕ) : ℚ) +
                    2 * ((homminor_count cows r + homminor_count bulls r : ℕ) : ℚ)) /
                  (2 * ((cows.length + bulls.length : ℕ) : ℚ))) := by
            rw [List.getElem?_map, hval]
            simp only [Option.map_some']
            congr 1
            push_cast
            ring
          refine ⟨hfr, ?_⟩
          rw [List.getElem?_map]
          have hzip : (recessives.zip (counts.map fun (k : Nat) => (k : ℚ)
              / ((2 * (cows.length + bulls.length) : ℕ) : ℚ)))[r]?
              = some (p, (((het_count cows r + het_count bulls r : ℕ) : ℚ) +
                  2 * ((homminor_count cows r + homminor_count bulls r : ℕ) : ℚ)) /
                (2 * ((cows.length + bulls.length : ℕ) : ℚ))) := by
            rw [List.getElem?_zip_eq_some]
            exact ⟨hp, hfr⟩
          rw [hzip]
          rfl
        · simp [freq_hist_update]

/-- A live cow, heterozygous at the single locus. -/
def C9cow : Animal :=
  { animal := 3, sire := 0, dam := 0, born := 0, sex := 'F', herd := 0, alive := "A",
    reason := "", died := -1, tbv := 0, inbreeding := 0, edit_status := [0],
    edit_count := [0], et_count := .vec [0], bred := 0, genotypes := [0] }

/-- A live bull, homozygous-major at the single locus. -/
def C9bull : Animal :=
  { animal := 4, sire := 0, dam := 0, born := 0, sex := 'M', herd := 0, alive := "A",
    reason := "", died := -1, tbv := 0, inbreeding := 0, edit_status := [0],
    edit_count := [0], et_count := .vec [0], bred := 0, genotypes := [1] }

/-- Expected updated recessives table for the C9 witness run. -/
def C9rc : List (String × Recessive) :=
  [("BLAD", { frequency := 1/4, value := 40, lethal := 1, edit := "0", edit_mode := "A" })]

/-- Expected frequency vector for the C9 witness run: one heterozygote out
of two animals gives 1 / (2·2). -/
def C9fr : List ℚ := [1/4]

/-- Witness for C9: a concrete one-locus population (one heterozygous cow,
one homozygous-major bull) on which `update_maf` returns and the theorem's
conclusions evaluate. -/
theorem C9_update_maf_formula_witness :
    update_maf [C9cow] [C9bull] lethalRecs = .ok (C9rc, C9fr)
      ∧ C9fr[0]? = some
          ((((het_count [C9cow] 0 + het_count [C9bull] 0 : ℕ) : ℚ) +
              2 * ((homminor_count [C9cow] 0 + homminor_count [C9bull] 0 : ℕ) : ℚ)) /
            (2 * ((([C9cow] : List Animal).length + ([C9bull] : List Animal).length : ℕ) : ℚ)))
      ∧ freq_hist_update (fun _ => none) 7 C9fr 7 = some C9fr := by
  have hEval : update_maf [C9cow] [C9bull] lethalRecs = .ok (C9rc, C9fr) := by
    norm_num [update_maf, count_animals, count_animal, pyGet, allele_add, C9cow, C9bull,
      lethalRecs, C9rc, C9fr]
  have H := C9_update_maf_formula [C9cow] [C9bull] lethalRecs 7 (fun _ => none)
    C9rc C9fr hEval
  exact ⟨hEval, (H.1 0 _ rfl).1, H.2⟩

/-!
## Mating Allocator, optimal (Pryce) strategy: `pryce_mating`

### The value matrix (geneedit.py:1570-1644)

For each herd and each bull×cow pair the cell is
`0.5*(b.tbv + c.tbv) − inbr[calf]*100*λ`, minus — when the `penalty` flag is
on — a per-locus genetic-risk discount determined by the parents' genotypes
(geneedit.py:1585-1644).  Each branch of `pryce_discount` below corresponds
to one branch of that if/elif chain.
-/

/-- The per-locus discount subtracted from a mating's value-matrix cell
(geneedit.py:1591-1644); `v` is the locus economic value `rv['value']`.
Note the het×minor branch (geneedit.py:1620-1629) subtracts nothing when
`carrier_penalty` is off: the `0.25·v + 0.50·v` adjustment sits entirely
inside `if carrier_penalty:` and the branch has no else. -/
def pryce_discount (bg cg : Int) (carrier_penalty : Bool) (v : ℚ) : ℚ :=
  if bg = -1 ∧ cg = -1 then v
  else if bg = 1 ∧ cg = 1 then 0
  else if (bg = 1 ∧ cg = 0) ∨ (bg = 0 ∧ cg = 1) then
    if carrier_penalty then (1/4) * v else 0
  else if (bg = 1 ∧ cg = -1) ∨ (bg = -1 ∧ cg = 1) then
    if carrier_penalty then (1/2) * v else 0
  else if (bg = 0 ∧ cg = -1) ∨ (bg = -1 ∧ cg = 0) then
    if carrier_penalty then (1/4) * v + (1/2) * v else 0
  else
    if carrier_penalty then (1/2) * v else (1/4) * v

/-- Modelled from the spec: the §4.4 genetic-risk discount table ("full
penalty = locus economic value").  It differs from `pryce_discount` only in
the het×minor row, where the table prescribes the full-affected fraction
(½ penalty) when the carrier penalty is disabled. -/
def spec_discount (bg cg : Int) (carrier_penalty : Bool) (v : ℚ) : ℚ :=
  if bg = -1 ∧ cg = -1 then v
  else if bg = 1 ∧ cg = 1 then 0
  else if (bg = 1 ∧ cg = 0) ∨ (bg = 0 ∧ cg = 1) then
    if carrier_penalty then (1/4) * v else 0
  else if (bg = 1 ∧ cg = -1) ∨ (bg = -1 ∧ cg = 1) then
    if carrier_penalty then (1/2) * v else 0
  else if (bg = 0 ∧ cg = -1) ∨ (bg = -1 ∧ cg = 0) then
    if carrier_penalty then (1/4) * v + (1/2) * v else (1/2) * v
  else
    if carrier_penalty then (1/2) * v else (1/4) * v

/-- The recessives loop of the cell computation (geneedit.py:1586-1644),
subtracting the per-locus discount from the running cell value. -/
def pryce_cell_loop (b c : Animal) (carrier_penalty : Bool) :
    List (String × Recessive) → Nat → ℚ → Except PyErr ℚ
  | [], _, acc => .ok acc
  | (_, rv) :: rest, r, acc =>
    match pyGet b.genotypes r with
    | .error e => .error e
    | .ok bg =>
      match pyGet c.genotypes r with
      | .error e => .error e
      | .ok cg =>
        pryce_cell_loop b c carrier_penalty rest (r + 1)
          (acc - pryce_discount bg cg carrier_penalty rv.value)

/-- One value-matrix cell `b_mat[bidx, cidx]` (geneedit.py:1582-1644):
parent-average TBV minus the inbreeding penalty `inbr*100*λ`, minus — when
`penalty` is set — the per-locus genetic-risk discounts. -/
def pryce_cell (b c : Animal) (fij flambda : ℚ) (penalty carrier_penalty : Bool)
    (recessives : List (String × Recessive)) : Except PyErr ℚ :=
  let base := (1/2) * (b.tbv + c.tbv) - fij * 100 * flambda
  if penalty then pryce_cell_loop b c carrier_penalty recessives 0 base
  else .ok base

/-- A heterozygous bull with TBV 10. -/
def C1bull : Animal :=
  { animal := 21, sire := 0, dam := 0, born := 0, sex := 'M', herd := 0, alive := "A",
    reason := "", died := -1, tbv := 10, inbreeding := 0, edit_status := [0],
    edit_count := [0], et_count := .vec [0], bred := 0, genotypes := [0] }

/-- A homozygous-minor cow with TBV 20. -/
def C1cow : Animal :=
  { animal := 22, sire := 0, dam := 0, born := 0, sex := 'F', herd := 0, alive := "A",
    reason := "", died := -1, tbv := 20, inbreeding := 0, edit_status := [0],
    edit_count := [0], et_count := .vec [0], bred := 0, genotypes := [-1] }

/-- One non-lethal locus of economic value 40. -/
def C1recs : List (String × Recessive) :=
  [("HH1", { frequency := 1/10, value := 40, lethal := 0, edit := "0", edit_mode := "A" })]

/-- **C1** (code bug, evaluated): for a het×minor mating with the recessives
penalty enabled but the carrier penalty disabled, the source's value-matrix
cell applies *no* genetic-risk discount (cell = PA − F·100·λ = −235 here),
whereas the spec's table prescribes the full-affected fraction ½·value,
i.e. cell −255.  With the carrier penalty enabled the source and the table
agree on ¼+½ of the value, as the last two conjuncts record. -/
theorem C1_het_minor_no_discount_when_carrier_penalty_off :
    pryce_cell C1bull C1cow (1/10) 25 true false C1recs = .ok (-235)
      ∧ (1/2) * (C1bull.tbv + C1cow.tbv) - (1/10) * 100 * 25
          - spec_discount 0 (-1) false 40 = -255
      ∧ ((-235 : ℚ) ≠ -255)
      ∧ pryce_discount 0 (-1) false 40 = 0
      ∧ spec_discount 0 (-1) false 40 = (1/2) * 40
      ∧ pryce_discount 0 (-1) true 40 = (1/4) * 40 + (1/2) * 40
      ∧ spec_discount 0 (-1) true 40 = (1/4) * 40 + (1/2) * 40 := by
  refine ⟨?_, ?_, by norm_num, ?_, ?_, ?_, ?_⟩ <;>
    norm_num [pryce_cell, pryce_cell_loop, pryce_discount, spec_discount, pyGet,
      C1bull, C1cow, C1recs]

/-!
### The allocation loop (geneedit.py:1662-1708)

For each cow of each herd, the bulls of the herd portfolio are tried in
descending value-matrix order (`ma.argsort` at geneedit.py:1681, traversed
from the top); a bull already at `max_matings` is skipped unless the deficit
policy is `'no_limit'` (geneedit.py:1686), a dead bull is skipped
(geneedit.py:1689), and the first eligible bull gets the mating and its
shared counter — initialized to 0 for every live bull in
`compute_inbreeding` (geneedit.py:871) and carried across all herds of the
generation — is incremented (geneedit.py:1694).  The per-cow traversal order
is abstracted as `orderOf`; the cap invariant below holds for every order,
in particular for the source's argsort order. -/

/-- Try bulls in preference order: skip a bull at the cap (unless
`noLimit`), skip a dead bull, take the first remaining one
(geneedit.py:1684-1692). -/
def pryce_pick (mat : Nat → Nat) (max_matings : Int) (noLimit : Bool) :
    List Animal → Option Animal
  | [] => none
  | b :: rest =>
    if (mat b.animal : Int) ≥ max_matings ∧ ¬noLimit then
      pryce_pick mat max_matings noLimit rest
    else if b.alive ≠ "A" then pryce_pick mat max_matings noLimit rest
    else some b

/-- The cow loop of one herd (geneedit.py:1677-1708): a successful pick
increments the chosen bull's counter. -/
def pryce_assign_herd (max_matings : Int) (noLimit : Bool)
    (orderOf : Animal → List Animal) :
    List Animal → (Nat → Nat) → (Nat → Nat)
  | [], mat => mat
  | c :: cs, mat =>
    match pryce_pick mat max_matings noLimit (orderOf c) with
    | none => pryce_assign_herd max_matings noLimit orderOf cs mat
    | some b =>
      pryce_assign_herd max_matings noLimit orderOf cs
        (fun id => if id = b.animal then mat id + 1 else mat id)

/-- The herd loop of `pryce_mating` (geneedit.py:1554), threading the shared
mating counters through every herd of the generation. -/
def pryce_assign_all (max_matings : Int) (noLimit : Bool) :
    List (List Animal × (Animal → List Animal)) → (Nat → Nat) → (Nat → Nat)
  | [], mat => mat
  | (cws, orderOf) :: herds, mat =>
    pryce_assign_all max_matings noLimit herds
      (pryce_assign_herd max_matings noLimit orderOf cws mat)

/-- The per-bull mating counts produced by one generation of Pryce
allocation: counters start at 0 (geneedit.py:871), `max_matings < 0` is
sanitized to 500 (geneedit.py:1498-1500), and the `'no_limit'` deficit
policy lifts the cap (geneedit.py:1686). -/
def pryce_matings_of (max_matings : Int) (bull_deficit : String)
    (herds : List (List Animal × (Animal → List Animal))) : Nat → Nat :=
  pryce_assign_all (if max_matings < 0 then 500 else max_matings)
    (bull_deficit = "no_limit") herds (fun _ => 0)

lemma pryce_pick_lt (mat : Nat → Nat) (M : Int) :
    ∀ (order : List Animal) (b : Animal), pryce_pick mat M false order = some b →
      (mat b.animal : Int) < M := by
  intro order
  induction order with
  | nil => intro b h; cases h
  | cons x rest ih =>
    intro b h
    simp only [pryce_pick] at h
    by_cases hcap : (mat x.animal : Int) ≥ M ∧ ¬False
    · rw [if_pos (by simpa using hcap)] at h
      exact ih b h
    · rw [if_neg (by simpa using hcap)] at h
      by_cases halive : x.alive ≠ "A"
      · rw [if_pos halive] at h
        exact ih b h
      · rw [if_neg halive] at h
        cases h
        by_contra hge
        exact hcap ⟨by omega, not_false⟩

lemma pryce_assign_herd_le (M : Int) (orderOf : Animal → List Animal) :
    ∀ (cs : List Animal) (mat : Nat → Nat),
      (∀ id, (mat id : Int) ≤ M) →
      ∀ id, (pryce_assign_herd M false orderOf cs mat id : Int) ≤ M := by
  intro cs
  induction cs with
  | nil => intro mat hm id; simpa [pryce_assign_herd] using hm id
  | cons c rest ih =>
    intro mat hm id
    simp only [pryce_assign_herd]
    cases hpick : pryce_pick mat M false (orderOf c) with
    | none => exact ih mat hm id
    | some b =>
      refine ih _ ?_ id
      intro j
      by_cases hj : j = b.animal
      · subst hj
        have hlt := pryce_pick_lt mat M (orderOf c) b hpick
        simp only [if_pos rfl]
        push_cast
        omega
      · simpa [hj] using hm j

lemma pryce_assign_all_le (M : Int) :
    ∀ (herds : List (List Animal × (Animal → List Animal))) (mat : Nat → Nat),
      (∀ id, (mat id : Int) ≤ M) →
      ∀ id, (pryce_assign_all M false herds mat id : Int) ≤ M := by
  intro herds
  induction herds with
  | nil => intro mat hm id; simpa [pryce_assign_all] using hm id
  | cons h rest ih =>
    intro mat hm id
    simp only [pryce_assign_all]
    exact ih _ (pryce_assign_herd_le M h.2 h.1 mat hm) id

/-- A live bull for the C2 `'no_limit'` run. -/
def C2bull : Animal :=
  { animal := 11, sire := 0, dam := 0, born := 0, sex := 'M', herd := 0, alive := "A",
    reason := "", died := -1, tbv := 50, inbreeding := 0, edit_status := [0],
    edit_count := [0], et_count := .vec [0], bred := 0, genotypes := [1] }

/-- Two cows in one herd whose only portfolio bull is `C2bull`. -/
def C2herds : List (List Animal × (Animal → List Animal)) :=
  [([C9cow, C1cow], fun _ => [C2bull])]

/-- **C2** (confirmed): with any deficit policy other than `'no_limit'`, no
bull's mating count — threaded across every herd of the generation — ever
exceeds the (sanitized) `max_matings` cap, for every herd structure and
every value-matrix preference order; and with `'no_limit'` the cap can be
exceeded, as the concrete one-bull/two-cows herd shows. -/
theorem C2_pryce_cap_respected :
    (∀ (herds : List (List Animal × (Animal → List Animal))) (max_matings : Int)
        (bull_deficit : String), bull_deficit ≠ "no_limit" → ∀ id,
      (pryce_matings_of max_matings bull_deficit herds id : Int)
        ≤ (if max_matings < 0 then 500 else max_matings))
    ∧ pryce_matings_of 1 "no_limit" C2herds C2bull.animal = 2 := by
  constructor
  · intro herds max_matings bull_deficit hd id
    have hM : (0 : Int) ≤ (if max_matings < 0 then 500 else max_matings) := by
      split <;> omega
    have hpol : (bull_deficit = "no_limit") = False := by
      simp [hd]
    simp only [pryce_matings_of, hpol]
    exact pryce_assign_all_le _ herds (fun _ => 0) (fun _ => hM) id
  · decide

/-- Witness for C2's capped part: the cap theorem applied to the concrete
herd with `max_matings = 2` and the `'use_horned'` deficit policy. -/
theorem C2_pryce_cap_respected_witness :
    (pryce_matings_of 2 "use_horned" C2herds C2bull.animal : Int)
      ≤ (if (2 : Int) < 0 then 500 else 2) :=
  C2_pryce_cap_respected.1 C2herds 2 "use_horned" (by decide) C2bull.animal

/-!
## Mating Allocator, random strategy: `random_mating` (geneedit.py:456-545)

The mating loop (geneedit.py:477-511) is:

    for c in cows:
        if c['alive'] == 'A':
            ...
            while not mated:
                bull_to_use = random.randint(0, len(bulls)-1)
                ...
                if bulls[bull_to_use]['alive'] == 'A' and matings[bull_id] < max_matings:
                    calf = create_new_calf(...)
                    ...
                    mated = True
                else:
                    ...
                cow['bred'] = 0          # line 509
            cow[14] = 1                  # line 511

The name `cow` is bound nowhere in geneedit.py (the loop variable is `c`),
so line 509 — which executes at the end of *every* iteration of the `while`
body — raises `NameError` the first time any live cow is processed.  Even
under the charitable reading `cow := c`, the `while not mated` loop has no
exit when every live bull is at capacity, so the function can never
"continue with unmated cows": it deadlocks instead.  The embedding models
the body faithfully: a calf may be created and is then lost when the
exception propagates. -/

/-- One iteration of the `while not mated:` body (geneedit.py:484-509) for
live cow `c`.  Every control path ends at `cow['bred'] = 0`, i.e. in
`NameError`; the return type `Empty` records that no normal value exists. -/
def random_mating_cow (bulls : List Animal) (c : Animal) (mat : Nat → Nat)
    (max_matings : Int) (recessives : List (String × Recessive)) (next_id : Nat)
    (generation : Int) (calf_loss dehorning_loss harvest_beef : ℚ) (rs : RSrc) :
    Except PyErr Empty :=
  if bulls.isEmpty then .error .valueError
  else
    match bulls[(popNat rs).1 % bulls.length]? with
    | none => .error .indexError
    | some b =>
      if b.alive = "A" ∧ (mat b.animal : Int) < max_matings then
        match create_new_calf b c recessives next_id generation calf_loss
            dehorning_loss harvest_beef (popNat rs).2 with
        | .error e => .error e
        | .ok _ => .error (.nameError "cow")
      else .error (.nameError "cow")

/-- The cow loop of `random_mating` (geneedit.py:477-511): dead cows are
skipped; the first live cow enters the `while` body, which cannot return
normally.  If no cow is alive the loop completes (the post-loop phases at
geneedit.py:513-545 — gene editing and inbreeding refresh — are outside this
claim's scope and unreachable whenever a live cow exists). -/
def random_mating_loop (bulls : List Animal) (mat : Nat → Nat) (max_matings : Int)
    (recessives : List (String × Recessive)) (next_id : Nat) (generation : Int)
    (calf_loss dehorning_loss harvest_beef : ℚ) :
    List Animal → RSrc → Except PyErr Unit
  | [], _ => .ok ()
  | c :: cs, rs =>
    if c.alive = "A" then
      match random_mating_cow bulls c mat max_matings recessives next_id generation
          calf_loss dehorning_loss harvest_beef rs with
      | .error e => .error e
      | .ok x => x.elim
    else
      random_mating_loop bulls mat max_matings recessives next_id generation
        calf_loss dehorning_loss harvest_beef cs rs

/-- `random_mating` up to the end of its mating loop (geneedit.py:456-511):
sanitize `max_matings` (≤ 0 becomes 50, geneedit.py:456-458; the
capacity-shortfall warning at geneedit.py:459-460 only prints), zero the
per-bull mating counters (geneedit.py:463-467), then run the cow loop. -/
def random_mating (cows bulls : List Animal) (max_matings : Int)
    (recessives : List (String × Recessive)) (next_id : Nat) (generation : Int)
    (calf_loss dehorning_loss harvest_beef : ℚ) (rs : RSrc) : Except PyErr Unit :=
  let mm := if max_matings ≤ 0 then 50 else max_matings
  random_mating_loop bulls (fun _ => 0) mm recessives next_id generation calf_loss
    dehorning_loss harvest_beef cows rs

lemma random_mating_cow_raises (bulls : List Animal) (c : Animal) (mat : Nat → Nat)
    (max_matings : Int) (recessives : List (String × Recessive)) (next_id : Nat)
    (generation : Int) (calf_loss dehorning_loss harvest_beef : ℚ) (rs : RSrc) :
    ∃ e, random_mating_cow bulls c mat max_matings recessives next_id generation
      calf_loss dehorning_loss harvest_beef rs = .error e := by
  unfold random_mating_cow
  by_cases hemp : bulls.isEmpty
  · exact ⟨.valueError, by rw [if_pos hemp]⟩
  · rw [if_neg hemp]
    cases hb : bulls[(popNat rs).1 % bulls.length]? with
    | none => exact ⟨.indexError, rfl⟩
    | some b =>
      dsimp only
      by_cases hok : b.alive = "A" ∧ ((mat b.animal : Int) < max_matings)
      · rw [if_pos hok]
        cases hc : create_new_calf b c recessives next_id generation calf_loss
            dehorning_loss harvest_beef (popNat rs).2 with
        | error e => exact ⟨e, rfl⟩
        | ok v => exact ⟨.nameError "cow", rfl⟩
      · rw [if_neg hok]
        exact ⟨.nameError "cow", rfl⟩

/-- **C3** (code bug): whenever at least one live cow exists, `random_mating`
raises an exception instead of producing calves — the `while` body's final
statement reads the unbound name `cow` (geneedit.py:509) — so the claimed
behavior (every live cow mated, unmated cows merely left open on capacity
shortfall, simulation continues) never happens.  Even reading `cow` as `c`,
the `while not mated` loop never terminates once all bulls are at capacity. -/
theorem C3_random_mating_raises (cows bulls : List Animal) (max_matings : Int)
    (recessives : List (String × Recessive)) (next_id : Nat) (generation : Int)
    (calf_loss dehorning_loss harvest_beef : ℚ) (rs : RSrc)
    (h : ∃ c ∈ cows, c.alive = "A") :
    ∃ e, random_mating cows bulls max_matings recessives next_id generation
      calf_loss dehorning_loss harvest_beef rs = .error e := by
  unfold random_mating
  induction cows with
  | nil => simp at h
  | cons c cs ih =>
    by_cases hc : c.alive = "A"
    · obtain ⟨e, he⟩ := random_mating_cow_raises bulls c (fun _ => 0)
        (if max_matings ≤ 0 then 50 else max_matings) recessives next_id generation
        calf_loss dehorning_loss harvest_beef rs
      exact ⟨e, by simp [random_mating_loop, hc, he]⟩
    · obtain ⟨c', hc', halive⟩ := h
      rcases List.mem_cons.1 hc' with rfl | hmem
      · exact absurd halive hc
      · simpa [random_mating_loop, hc] using ih ⟨c', hmem, halive⟩

/-- Witness for C3: the concrete one-cow population (the cow is alive)
raises. -/
theorem C3_random_mating_raises_witness :
    ∃ e, random_mating [C9cow] [C9bull] 1 lethalRecs 50 1 0 0 0 ⟨[], [], []⟩
      = .error e :=
  C3_random_mating_raises [C9cow] [C9bull] 1 lethalRecs 50 1 0 0 0 ⟨[], [], []⟩
    ⟨C9cow, by simp, rfl⟩

/-!
## Gene Editing Pipeline: `edit_genes` (geneedit.py:2121-2374)

Per selected animal (geneedit.py:2256-2351): deep-copy a clone with a new id
and `born = generation`; loop over the recessives — for a carrier (`0`) or
homozygous-recessive (`-1`) genotype run the editing trials, and on a
success with `edit_trials > 0` the `break` at geneedit.py:2286 exits the
whole recessives loop; then run the embryo-transfer step, keyed on `rv`,
the loop variable left over from the recessives loop; a failed transfer
marks the clone dead (reason `"G"`) and appends it to the dead list
(geneedit.py:2313-2319); finally `reason`/`died` are set unconditionally
(geneedit.py:2344-2345) and the clone is appended to the live list
(geneedit.py:2346-2349) — the removal of dead clones from the live list is
commented out (geneedit.py:2340-2341).  Note the loop tests only the
clone's genotype (geneedit.py:2271); the per-locus `rv['edit']` flag is
never consulted inside `edit_genes`.
-/

/-- Embryo-transfer death rates, keyed by lethality class
(`edit_mode` ∈ {A, D, O}) and tool (geneedit.py:2179-2181); any other key
raises `KeyError`. -/
def death_rate (mode : String) (tool : Char) : Except PyErr ℚ :=
  if mode = "A" ∨ mode = "O" then
    if tool = 'Z' then .ok (92/100) else if tool = 'T' then .ok (88/100)
    else if tool = 'C' then .ok (79/100) else if tool = 'P' then .ok 0
    else .error .keyError
  else if mode = "D" then
    if tool = 'Z' then .ok (46/100) else if tool = 'T' then .ok (44/100)
    else if tool = 'C' then .ok (39/100) else if tool = 'P' then .ok 0
    else .error .keyError
  else .error .keyError

/-- Gene-editing failure rates, keyed like `death_rate`
(geneedit.py:2185-2187). -/
def fail_rate (mode : String) (tool : Char) : Except PyErr ℚ :=
  if mode = "A" ∨ mode = "O" then
    if tool = 'Z' then .ok (89/100) else if tool = 'T' then .ok (79/100)
    else if tool = 'C' then .ok (37/100) else if tool = 'P' then .ok 0
    else .error .keyError
  else if mode = "D" then
    if tool = 'Z' then .ok (45/100) else if tool = 'T' then .ok (40/100)
    else if tool = 'C' then .ok (19/100) else if tool = 'P' then .ok 0
    else .error .keyError
  else .error .keyError

/-- The `while True` retry loop used for unlimited edit / embryo-transfer
trials (geneedit.py:2291-2300, 2329-2334): increment the attempt counter,
draw, stop on success.  The loop has no bound in the source; `fuel` makes
the embedding total, with `outOfFuel` marking runs longer than any given
bound. -/
def retry_loop (p : ℚ) : Nat → Nat → RSrc → Except PyErr (Int × RSrc)
  | 0, _, _ => .error .outOfFuel
  | fuel + 1, cnt, rs =>
    let pB := bern p rs
    if pB.1 then .ok ((cnt + 1 : Nat), pB.2)
    else retry_loop p fuel (cnt + 1) pB.2

/-- The recessives loop of `edit_genes` for one clone
(geneedit.py:2266-2304).  Returns the edited clone, the final value of the
loop variable `rv` (needed by the embryo-transfer step), and the stream.
On an edit success with `edit_trials > 0` the `break` at geneedit.py:2286
stops the loop, skipping all remaining loci. -/
def edit_rec_loop (edit_type : Char) (edit_trials : Int) (fuel : Nat) :
    List (String × Recessive) → Nat → Animal → Option Recessive → RSrc →
      Except PyErr (Animal × Option Recessive × RSrc)
  | [], _, a, lastRv, rs => .ok (a, lastRv, rs)
  | (_, rv) :: rest, r, a, _, rs =>
    match pyGet a.genotypes r with
    | .error e => .error e
    | .ok g =>
      if g = 0 ∨ g = -1 then
        if edit_trials > 0 then
          match fail_rate rv.edit_mode edit_type with
          | .error e => .error e
          | .ok fr =>
            let pOut := bernMany (1 - fr) edit_trials.toNat rs
            if pOut.1.any id then
              match pySet a.genotypes r 1 with
              | .error e => .error e
              | .ok gs =>
                match pySet a.edit_status r 1 with
                | .error e => .error e
                | .ok ss =>
                  match pySet a.edit_count r (firstSuccess pOut.1) with
                  | .error e => .error e
                  | .ok cs =>
                    -- the `break` (geneedit.py:2286)
                    .ok ({ a with genotypes := gs, edit_status := ss, edit_count := cs },
                      some rv, pOut.2)
            else
              edit_rec_loop edit_type edit_trials fuel rest (r + 1) a (some rv) pOut.2
        else if edit_trials < 0 then
          match fail_rate rv.edit_mode edit_type with
          | .error e => .error e
          | .ok fr =>
            match retry_loop (1 - fr) fuel 0 rs with
            | .error e => .error e
            | .ok (cnt, rs') =>
              match pySet a.genotypes r 1 with
              | .error e => .error e
              | .ok gs =>
                match pySet a.edit_status r 1 with
                | .error e => .error e
                | .ok ss =>
                  match pySet a.edit_count r cnt with
                  | .error e => .error e
                  | .ok cs =>
                    -- the inner break only exits the `while` (geneedit.py:2300)
                    edit_rec_loop edit_type edit_trials fuel rest (r + 1)
                      { a with genotypes := gs, edit_status := ss, edit_count := cs }
                      (some rv) rs'
        else
          -- edit_trials = 0: warn and skip (geneedit.py:2303-2304)
          edit_rec_loop edit_type edit_trials fuel rest (r + 1) a (some rv) rs
      else edit_rec_loop edit_type edit_trials fuel rest (r + 1) a (some rv) rs

/-- The embryo-transfer step for one clone (geneedit.py:2305-2338), keyed on
the leftover loop variable `rv`; with an empty recessives table `rv` was
never bound and reading it raises `NameError`.  Returns the (possibly
dead-marked) clone, whether it was appended to the dead list, and the
stream. -/
def et_step (edit_type : Char) (embryo_trials : Int) (fuel : Nat) (generation : Int)
    (a : Animal) (lastRv : Option Recessive) (rs : RSrc) :
    Except PyErr (Animal × Bool × RSrc) :=
  match lastRv with
  | none => .error (.nameError "rv")
  | some rv =>
    if embryo_trials > 0 then
      match death_rate rv.edit_mode edit_type with
      | .error e => .error e
      | .ok dr =>
        let pOut := bernMany (1 - dr) embryo_trials.toNat rs
        if pOut.1.any id then
          .ok ({ a with et_count := .num (firstSuccess pOut.1) }, false, pOut.2)
        else
          .ok ({ a with alive := "D", reason := "G", died := generation }, true, pOut.2)
    else if embryo_trials < 0 then
      match death_rate rv.edit_mode edit_type with
      | .error e => .error e
      | .ok dr =>
        match retry_loop (1 - dr) fuel 0 rs with
        | .error e => .error e
        | .ok (cnt, rs') => .ok ({ a with et_count := .num cnt }, false, rs')
    else
      -- embryo_trials = 0: warn and skip (geneedit.py:2337-2338)
      .ok (a, false, rs)

/-- The whole per-animal pipeline (geneedit.py:2256-2351): clone with a new
id and `born = generation`, recessives loop, embryo-transfer step, then the
unconditional `reason = 'G'` / `died = generation` assignments
(geneedit.py:2344-2345).  Returns the final clone record, whether it was
appended to the dead list, and the stream. -/
def edit_one_animal (src : Animal) (recessives : List (String × Recessive))
    (generation : Int) (edit_type : Char) (edit_trials embryo_trials : Int)
    (next_id : Nat) (fuel : Nat) (rs : RSrc) : Except PyErr (Animal × Bool × RSrc) :=
  match edit_rec_loop edit_type edit_trials fuel recessives 0
      { src with animal := next_id, born := generation } none rs with
  | .error e => .error e
  | .ok (a1, lastRv, rs1) =>
    match et_step edit_type embryo_trials fuel generation a1 lastRv rs1 with
    | .error e => .error e
    | .ok (a2, died, rs2) =>
      .ok ({ a2 with reason := "G", died := generation }, died, rs2)

/-- The live/dead list updates for one edited animal: the dead list gains
the clone when the transfer failed (geneedit.py:2316-2319), and the live
list gains it *unconditionally* (geneedit.py:2346-2349; the dead-clone
removal at geneedit.py:2340-2341 is commented out).  Python appends the
clone dict by reference, so the final `reason`/`died` assignments are seen
through both lists; the embedding appends the final record to both. -/
def edit_apply_one (live dead : List Animal) (src : Animal)
    (recessives : List (String × Recessive)) (generation : Int) (edit_type : Char)
    (edit_trials embryo_trials : Int) (next_id : Nat) (fuel : Nat) (rs : RSrc) :
    Except PyErr (List Animal × List Animal × RSrc) :=
  match edit_one_animal src recessives generation edit_type edit_trials embryo_trials
      next_id fuel rs with
  | .error e => .error e
  | .ok (a, died, rs') =>
    .ok (live ++ [a], (if died then dead ++ [a] else dead), rs')

/-- **C10** (confirmed): every clone the pipeline finishes — whether its
embryo transfer failed or succeeded and it joined the live population —
carries `reason = "G"` (the gene-editing code) and `died = generation`,
because geneedit.py:2344-2345 set them unconditionally after the transfer
step; for live clones these fields therefore do not indicate death. -/
theorem C10_every_clone_reason_G (src : Animal)
    (recessives : List (String × Recessive)) (generation : Int) (edit_type : Char)
    (edit_trials embryo_trials : Int) (next_id : Nat) (fuel : Nat) (rs : RSrc)
    (res : Animal × Bool × RSrc)
    (h : edit_one_animal src recessives generation edit_type edit_trials embryo_trials
      next_id fuel rs = .ok res) :
    res.1.reason = "G" ∧ res.1.died = generation := by
  unfold edit_one_animal at h
  cases h1 : edit_rec_loop edit_type edit_trials fuel recessives 0
      { src with animal := next_id, born := generation } none rs with
  | error e => rw [h1] at h; cases h
  | ok t1 =>
    rw [h1] at h
    dsimp only at h
    cases h2 : et_step edit_type embryo_trials fuel generation t1.1 t1.2.1 t1.2.2 with
    | error e => rw [h2] at h; cases h
    | ok t2 =>
      rw [h2] at h
      dsimp only at h
      cases h
      exact ⟨rfl, rfl⟩

/-- A two-locus clone source for C10's witness: homozygous-major everywhere,
so the recessives loop edits nothing and the perfect tool carries the
transfer. -/
theorem C10_every_clone_reason_G_witness :
    ∃ res, edit_one_animal AASire twoRecs 5 'P' 1 1 99 0 ⟨[], [], []⟩ = .ok res
      ∧ res.1.reason = "G" ∧ res.1.died = 5 := by
  have h : edit_one_animal AASire twoRecs 5 'P' 1 1 99 0 ⟨[], [], []⟩
      = .ok (({ AASire with
                animal := 99, born := 5, reason := "G", died := 5,
                et_count := .num 1 } : Animal), false, (⟨[], [], []⟩ : RSrc)) := by
    norm_num [edit_one_animal, edit_rec_loop, et_step, pyGet, death_rate, fail_rate,
      bernMany, bern, firstSuccess, AASire, twoRecs]
    simp +decide
  exact ⟨_, h, C10_every_clone_reason_G AASire twoRecs 5 'P' 1 1 99 0 ⟨[], [], []⟩ _ h⟩

/-- Two edit-enabled (`edit = "1"`) non-lethal loci. -/
def C6recs : List (String × Recessive) :=
  [("E1", { frequency := 1/2, value := 20, lethal := 0, edit := "1", edit_mode := "A" }),
   ("E2", { frequency := 1/4, value := 30, lethal := 0, edit := "1", edit_mode := "A" })]

/-- A live animal that is a carrier at both edit-enabled loci. -/
def C6src : Animal :=
  { animal := 31, sire := 0, dam := 0, born := 0, sex := 'M', herd := 0, alive := "A",
    reason := "", died := -1, tbv := 300, inbreeding := 0, edit_status := [0, 0],
    edit_count := [0, 0], et_count := .vec [0, 0], bred := 0, genotypes := [0, 0] }

/-- **C6** (code bug, evaluated): with the perfect tool (`'P'`, zero failure
rate) and `edit_trials = 1`, a clone that is a carrier at *two* edit-enabled
loci leaves the pipeline with only the first locus edited
(`genotypes = [1, 0]`, `edit_status = [1, 0]`): the `break` at
geneedit.py:2286 exits the recessives loop after the first successful edit,
so the claim's "this happens for all such loci, not only the first one
edited" fails. -/
theorem C6_break_skips_remaining_loci :
    edit_one_animal C6src C6recs 5 'P' 1 1 99 0 ⟨[], [], []⟩
      = .ok (({ C6src with
                animal := 99, born := 5, genotypes := [1, 0], edit_status := [1, 0],
                edit_count := [1, 0], et_count := .num 1, reason := "G",
                died := 5 } : Animal), false, (⟨[], [], []⟩ : RSrc))
      ∧ (C6recs.map fun p => p.2.edit) = ["1", "1"]
      ∧ C6src.genotypes = [0, 0]
      ∧ ([1, 0] : List Int) ≠ [1, 1] := by
  refine ⟨?_, rfl, rfl, by decide⟩
  norm_num [edit_one_animal, edit_rec_loop, et_step, pyGet, pySet, death_rate,
    fail_rate, bernMany, bern, firstSuccess, C6src, C6recs]
  simp +decide

/-- One edit-enabled locus for the C5 run. -/
def C5recs : List (String × Recessive) :=
  [("E1", { frequency := 1/2, value := 20, lethal := 0, edit := "1", edit_mode := "A" })]

/-- A live carrier to be cloned and edited with the ZFN tool. -/
def C5src : Animal :=
  { animal := 41, sire := 0, dam := 0, born := 0, sex := 'M', herd := 0, alive := "A",
    reason := "", died := -1, tbv := 400, inbreeding := 0, edit_status := [0],
    edit_count := [0], et_count := .vec [0], bred := 0, genotypes := [0] }

/-- The final record of the C5 clone: edited at the locus, then dead after
its single embryo-transfer trial failed. -/
def C5clone : Animal :=
  { animal := 99, sire := 0, dam := 0, born := 5, sex := 'M', herd := 0, alive := "D",
    reason := "G", died := 5, tbv := 400, inbreeding := 0, edit_status := [1],
    edit_count := [1], et_count := .vec [0], bred := 0, genotypes := [1] }

/-- **C5** (code bug, evaluated): a clone whose only embryo-transfer trial
fails is marked dead with reason `"G"` and appended to the dead list
(geneedit.py:2313-2319) — but it is then *also* appended to the live list by
the unconditional tail of the animal loop (geneedit.py:2346-2349; the
removal of dead clones is commented out at geneedit.py:2340-2341).  Starting
from empty lists, the same dead record ends up in both, so "placed in the
dead collection but not in the live collection" and "every clone ends in
exactly one of the live/dead collections" both fail.  (The stream makes the
edit trial succeed and the transfer trial fail.) -/
theorem C5_failed_clone_in_both_lists :
    edit_apply_one [] [] C5src C5recs 5 'Z' 1 1 99 0 ⟨[true, false], [], []⟩
      = .ok ([C5clone], [C5clone], (⟨[], [], []⟩ : RSrc))
      ∧ C5clone.alive = "D" ∧ C5clone.reason = "G" := by
  refine ⟨?_, rfl, rfl⟩
  norm_num [edit_apply_one, edit_one_animal, edit_rec_loop, et_step, pyGet, pySet,
    death_rate, fail_rate, bernMany, bern, firstSuccess, C5src, C5recs, C5clone]
  simp +decide

end GeneEdit
